import Mathlib

/-!
Shallow embedding of the two eBPF capture programs of the network exporter:

* `tcpconn.bpf.c` — kprobes `probe_tcp_connect` and `probe_tcp_close`,
  each building an `event_t` from a socket's common header and writing it
  to a ring buffer;
* `tcpflow.bpf.c` — tracepoint handler `trace_tcp_probe`, building a
  `tcp_probe_event` from a `tcp_probe` tracepoint context.

Machine integers are modelled as `Nat` with explicit `% 2^w` where the
width matters; fixed-size byte arrays are modelled as `List Nat` (the
code only ever copies them as whole blocks or leaves them at their
zero-initialized state).  A `bpf_probe_read` that may fault is modelled
by an explicit success flag: on failure the destination keeps its
current (zero-initialized) value, exactly as in the kernel helper.
-/

/-- The byte-swap of a 16-bit value, as computed by `__builtin_bswap16`
on the low 16 bits of its argument. -/
def bswap16 (x : Nat) : Nat :=
  (x % 256) * 256 + (x / 256) % 256

/-- Model of the `bpf_probe_read` helper: if the read succeeds (`ok`)
the destination receives the source value, otherwise the destination
keeps its current value (the caller zero-initializes it). -/
def bpf_probe_read {α : Type} (ok : Bool) (dst src : α) : α :=
  if ok then src else dst

/-- The BPF ring buffer transport (`BPF_MAP_TYPE_RINGBUF`), abstracted
to record granularity: a fixed record capacity, the committed records in
submission order, and a count of reservation attempts. -/
structure Ringbuf (α : Type) where
  capacity : Nat
  attempts : Nat
  data : List α
deriving Repr, DecidableEq

/-- Model of `bpf_ringbuf_output`: one reservation attempt; if the
buffer has room the record is committed at the tail and `0` is
returned, otherwise nothing is written and a negative code is
returned.  The caller never inspects the return value. -/
def bpf_ringbuf_output {α : Type} (rb : Ringbuf α) (e : α) : Ringbuf α × Int :=
  if rb.data.length < rb.capacity then
    ({ rb with attempts := rb.attempts + 1, data := rb.data ++ [e] }, 0)
  else
    ({ rb with attempts := rb.attempts + 1 }, -1)

/-- The fields of `struct sock.__sk_common` read by the tcpconn probes.
`skc_num` and `skc_dport` hold the 16-bit port values as stored at the
source (network byte order per the kernel layout); the address fields
are the raw byte blocks. -/
structure sock_common where
  skc_num : Nat
  skc_dport : Nat
  skc_family : Nat
  skc_rcv_saddr : List Nat
  skc_daddr : List Nat
  skc_v6_rcv_saddr : List Nat
  skc_v6_daddr : List Nat
deriving Repr, DecidableEq

/-- The `struct event_t` record of `tcpconn.bpf.c`, field for field. -/
structure event_t where
  pid : Nat
  sport : Nat
  dport : Nat
  family : Nat
  saddr : List Nat
  daddr : List Nat
  saddr_v6 : List Nat
  daddr_v6 : List Nat
  typ : List Nat
deriving Repr, DecidableEq

/-- The zero initialization `struct event_t event = {}`. -/
def event_t.zero : event_t :=
  { pid := 0, sport := 0, dport := 0, family := 0
  , saddr := List.replicate 4 0, daddr := List.replicate 4 0
  , saddr_v6 := List.replicate 16 0, daddr_v6 := List.replicate 16 0
  , typ := List.replicate 16 0 }

/-- Per-read success flags for the seven `bpf_probe_read` calls a
tcpconn probe performs. -/
structure ConnReads where
  sport_ok : Bool
  dport_ok : Bool
  family_ok : Bool
  saddr_ok : Bool
  daddr_ok : Bool
  saddr_v6_ok : Bool
  daddr_v6_ok : Bool
deriving Repr, DecidableEq

/-- All reads succeed. -/
def ConnReads.all : ConnReads :=
  { sport_ok := true, dport_ok := true, family_ok := true
  , saddr_ok := true, daddr_ok := true
  , saddr_v6_ok := true, daddr_v6_ok := true }

/-- ASCII bytes of the literal "connect". -/
def connectTag : List Nat := [99, 111, 110, 110, 101, 99, 116]

/-- ASCII bytes of the literal "close". -/
def closeTag : List Nat := [99, 108, 111, 115, 101]

/-- The `__builtin_memcpy(&event.typ, lit, sizeof(lit) - 1)` step: the
literal's bytes (without the terminating NUL) land in the first bytes of
the zero-initialized 16-byte `typ` field, the rest stay zero. -/
def memcpy_tag (lit : List Nat) : List Nat :=
  lit ++ List.replicate (16 - lit.length) 0

/-- The record built by `probe_tcp_close` before it is handed to
`bpf_ringbuf_output`, following the body of the C function line by
line.  `pid_tgid` is the value returned by `bpf_get_current_pid_tgid`
(a 64-bit value, tgid in the high 32 bits). -/
def probe_tcp_close_event (pid_tgid : Nat) (s : sock_common) (f : ConnReads) : event_t :=
  let event := event_t.zero
  let event := { event with pid := pid_tgid % 18446744073709551616 / 4294967296 }
  let event := { event with sport := bpf_probe_read f.sport_ok event.sport (s.skc_num % 65536) }
  let event := { event with dport := bpf_probe_read f.dport_ok event.dport (s.skc_dport % 65536) }
  let event := { event with sport := bswap16 event.sport }
  let event := { event with dport := bswap16 event.dport }
  let event := { event with family := bpf_probe_read f.family_ok event.family (s.skc_family % 65536) }
  let event : event_t := if event.family = 2 then
      let event := { event with saddr := bpf_probe_read f.saddr_ok event.saddr s.skc_rcv_saddr }
      { event with daddr := bpf_probe_read f.daddr_ok event.daddr s.skc_daddr }
    else event
  let event : event_t := if event.family = 10 then
      let event := { event with saddr_v6 := bpf_probe_read f.saddr_v6_ok event.saddr_v6 s.skc_v6_rcv_saddr }
      { event with daddr_v6 := bpf_probe_read f.daddr_v6_ok event.daddr_v6 s.skc_v6_daddr }
    else event
  { event with typ := memcpy_tag closeTag }

/-- The record built by `probe_tcp_connect`; identical to
`probe_tcp_close_event` except for the final tag. -/
def probe_tcp_connect_event (pid_tgid : Nat) (s : sock_common) (f : ConnReads) : event_t :=
  let event := event_t.zero
  let event := { event with pid := pid_tgid % 18446744073709551616 / 4294967296 }
  let event := { event with sport := bpf_probe_read f.sport_ok event.sport (s.skc_num % 65536) }
  let event := { event with dport := bpf_probe_read f.dport_ok event.dport (s.skc_dport % 65536) }
  let event := { event with sport := bswap16 event.sport }
  let event := { event with dport := bswap16 event.dport }
  let event := { event with family := bpf_probe_read f.family_ok event.family (s.skc_family % 65536) }
  let event : event_t := if event.family = 2 then
      let event := { event with saddr := bpf_probe_read f.saddr_ok event.saddr s.skc_rcv_saddr }
      { event with daddr := bpf_probe_read f.daddr_ok event.daddr s.skc_daddr }
    else event
  let event : event_t := if event.family = 10 then
      let event := { event with saddr_v6 := bpf_probe_read f.saddr_v6_ok event.saddr_v6 s.skc_v6_rcv_saddr }
      { event with daddr_v6 := bpf_probe_read f.daddr_v6_ok event.daddr_v6 s.skc_v6_daddr }
    else event
  { event with typ := memcpy_tag connectTag }

/-- The full `probe_tcp_close` kprobe: build the record, output it to
the ring buffer (return value ignored), return 0. -/
def probe_tcp_close (pid_tgid : Nat) (s : sock_common) (f : ConnReads)
    (rb : Ringbuf event_t) : Ringbuf event_t × Int :=
  let event := probe_tcp_close_event pid_tgid s f
  let rb := (bpf_ringbuf_output rb event).1
  (rb, 0)

/-- The full `probe_tcp_connect` kprobe. -/
def probe_tcp_connect (pid_tgid : Nat) (s : sock_common) (f : ConnReads)
    (rb : Ringbuf event_t) : Ringbuf event_t × Int :=
  let event := probe_tcp_connect_event pid_tgid s f
  let rb := (bpf_ringbuf_output rb event).1
  (rb, 0)

/-- The `struct tcp_probe` tracepoint context of `tcpflow.bpf.c`,
field for field (including the tracepoint common header and the
congestion-control fields the handler never reads). -/
structure tcp_probe where
  common_type : Nat
  common_flags : Nat
  common_preempt_count : Nat
  common_pid : Int
  saddr : List Nat
  daddr : List Nat
  sport : Nat
  dport : Nat
  family : Nat
  mark : Nat
  data_len : Nat
  snd_nxt : Nat
  snd_una : Nat
  snd_cwnd : Nat
  ssthresh : Nat
  snd_wnd : Nat
  srtt : Nat
  rcv_wnd : Nat
  sock_cookie : Nat
deriving Repr, DecidableEq

/-- The `struct tcp_probe_event` record of `tcpflow.bpf.c`, field for
field and in the source's field order (`reason` sits between `family`
and `data_len`). -/
structure tcp_probe_event where
  saddr : List Nat
  daddr : List Nat
  sport : Nat
  dport : Nat
  family : Nat
  reason : Nat
  data_len : Nat
  srtt : Nat
  pid : Nat
deriving Repr, DecidableEq

/-- The zero initialization `struct tcp_probe_event event = {}`. -/
def tcp_probe_event.zero : tcp_probe_event :=
  { saddr := List.replicate 28 0, daddr := List.replicate 28 0
  , sport := 0, dport := 0, family := 0, reason := 0
  , data_len := 0, srtt := 0, pid := 0 }

/-- Per-read success flags for the two `bpf_probe_read` calls
`trace_tcp_probe` performs. -/
structure FlowReads where
  saddr_ok : Bool
  daddr_ok : Bool
deriving Repr, DecidableEq

/-- The record built by `trace_tcp_probe` (on the path where
`ctx->data_len != 0`) before it is handed to `bpf_ringbuf_output`,
following the body of the C function line by line. -/
def trace_tcp_probe_event (pid_tgid : Nat) (ctx : tcp_probe) (f : FlowReads) : tcp_probe_event :=
  let event := tcp_probe_event.zero
  let event := { event with saddr := bpf_probe_read f.saddr_ok event.saddr ctx.saddr }
  let event := { event with daddr := bpf_probe_read f.daddr_ok event.daddr ctx.daddr }
  let event := { event with sport := ctx.sport }
  let event := { event with dport := ctx.dport }
  let event := { event with family := ctx.family }
  let event := { event with data_len := ctx.data_len }
  let event := { event with srtt := ctx.srtt }
  { event with pid := pid_tgid % 18446744073709551616 / 4294967296 }

/-- The full `trace_tcp_probe` tracepoint handler: return 0 at once
when `ctx->data_len == 0` (no record, no transport call); otherwise
build the record, output it to the ring buffer (return value ignored)
and return 0. -/
def trace_tcp_probe (pid_tgid : Nat) (ctx : tcp_probe) (f : FlowReads)
    (rb : Ringbuf tcp_probe_event) : Ringbuf tcp_probe_event × Int :=
  if ctx.data_len = 0 then (rb, 0)
  else
    let event := trace_tcp_probe_event pid_tgid ctx f
    let rb := (bpf_ringbuf_output rb event).1
    (rb, 0)

/-- Feeding a list of tracepoint samples (each with its own read
outcome) through `trace_tcp_probe`, threading the ring buffer. -/
def runFlowSamples (pid_tgid : Nat) (samples : List (tcp_probe × FlowReads))
    (rb : Ringbuf tcp_probe_event) : Ringbuf tcp_probe_event :=
  samples.foldl (fun rb sf => (trace_tcp_probe pid_tgid sf.1 sf.2 rb).1) rb

/-- A sample IPv4 socket state used to exercise the probes on concrete
input: local port 443 and remote port 51000, both stored byte-swapped
(network order) as at the source. -/
def demoSock : sock_common :=
  { skc_num := bswap16 443, skc_dport := bswap16 51000, skc_family := 2
  , skc_rcv_saddr := [10, 0, 0, 1], skc_daddr := [10, 0, 0, 2]
  , skc_v6_rcv_saddr := List.replicate 16 0, skc_v6_daddr := List.replicate 16 0 }

/-- A sample tracepoint context carrying a 1460-byte payload sample. -/
def demoCtx : tcp_probe :=
  { common_type := 0, common_flags := 0, common_preempt_count := 0, common_pid := 0
  , saddr := List.replicate 28 1, daddr := List.replicate 28 2
  , sport := 443, dport := 51000, family := 2, mark := 0, data_len := 1460
  , snd_nxt := 0, snd_una := 0, snd_cwnd := 10, ssthresh := 5, snd_wnd := 100
  , srtt := 25000, rcv_wnd := 200, sock_cookie := 99 }

/-- The same tracepoint context with an empty payload. -/
def demoCtx0 : tcp_probe := { demoCtx with data_len := 0 }

/-- Flow reads that all succeed. -/
def demoFlowReads : FlowReads := { saddr_ok := true, daddr_ok := true }

/-- An empty flow ring buffer with room for four records. -/
def demoFlowRb : Ringbuf tcp_probe_event := { capacity := 4, attempts := 0, data := [] }

/-- Two empty-payload samples in a row. -/
def demoSamples : List (tcp_probe × FlowReads) :=
  [(demoCtx0, demoFlowReads), (demoCtx0, demoFlowReads)]

/-- An empty connection ring buffer with room for four records. -/
def demoConnRb : Ringbuf event_t := { capacity := 4, attempts := 0, data := [] }

/-- A connection ring buffer whose capacity is exhausted. -/
def fullConnRb : Ringbuf event_t := { capacity := 0, attempts := 0, data := [] }

/-- A flow ring buffer whose capacity is exhausted. -/
def fullFlowRb : Ringbuf tcp_probe_event := { capacity := 0, attempts := 0, data := [] }

/-- Connection reads that all fault. -/
def ConnReads.noneOk : ConnReads :=
  { sport_ok := false, dport_ok := false, family_ok := false
  , saddr_ok := false, daddr_ok := false
  , saddr_v6_ok := false, daddr_v6_ok := false }

/-- Flow reads that both fault. -/
def FlowReads.noneOk : FlowReads := { saddr_ok := false, daddr_ok := false }

/-- Any 16-bit byte swap is again a 16-bit value. -/
theorem bswap16_lt (x : Nat) : bswap16 x < 65536 := by
  unfold bswap16; omega

/-- The 16-bit byte swap is an involution on 16-bit values. -/
theorem bswap16_bswap16 (x : Nat) (h : x < 65536) : bswap16 (bswap16 x) = x := by
  unfold bswap16
  have h1 : x / 256 % 256 = x / 256 := by omega
  rw [h1]
  have h3 : (x % 256 * 256 + x / 256) % 256 = x / 256 := by omega
  have h4 : (x % 256 * 256 + x / 256) / 256 = x % 256 := by omega
  rw [h3, h4]
  omega

/-- Closed form of the record built by `probe_tcp_close`. -/
theorem probe_tcp_close_event_eq (pid_tgid : Nat) (s : sock_common) (f : ConnReads) :
    probe_tcp_close_event pid_tgid s f =
      { pid := pid_tgid % 18446744073709551616 / 4294967296
      , sport := bswap16 (bpf_probe_read f.sport_ok 0 (s.skc_num % 65536))
      , dport := bswap16 (bpf_probe_read f.dport_ok 0 (s.skc_dport % 65536))
      , family := bpf_probe_read f.family_ok 0 (s.skc_family % 65536)
      , saddr := if bpf_probe_read f.family_ok 0 (s.skc_family % 65536) = 2 then
            bpf_probe_read f.saddr_ok (List.replicate 4 0) s.skc_rcv_saddr
          else List.replicate 4 0
      , daddr := if bpf_probe_read f.family_ok 0 (s.skc_family % 65536) = 2 then
            bpf_probe_read f.daddr_ok (List.replicate 4 0) s.skc_daddr
          else List.replicate 4 0
      , saddr_v6 := if bpf_probe_read f.family_ok 0 (s.skc_family % 65536) = 10 then
            bpf_probe_read f.saddr_v6_ok (List.replicate 16 0) s.skc_v6_rcv_saddr
          else List.replicate 16 0
      , daddr_v6 := if bpf_probe_read f.family_ok 0 (s.skc_family % 65536) = 10 then
            bpf_probe_read f.daddr_v6_ok (List.replicate 16 0) s.skc_v6_daddr
          else List.replicate 16 0
      , typ := memcpy_tag closeTag } := by
  simp only [probe_tcp_close_event, event_t.zero]
  split <;> split <;> simp_all

/-- Closed form of the record built by `probe_tcp_connect`. -/
theorem probe_tcp_connect_event_eq (pid_tgid : Nat) (s : sock_common) (f : ConnReads) :
    probe_tcp_connect_event pid_tgid s f =
      { pid := pid_tgid % 18446744073709551616 / 4294967296
      , sport := bswap16 (bpf_probe_read f.sport_ok 0 (s.skc_num % 65536))
      , dport := bswap16 (bpf_probe_read f.dport_ok 0 (s.skc_dport % 65536))
      , family := bpf_probe_read f.family_ok 0 (s.skc_family % 65536)
      , saddr := if bpf_probe_read f.family_ok 0 (s.skc_family % 65536) = 2 then
            bpf_probe_read f.saddr_ok (List.replicate 4 0) s.skc_rcv_saddr
          else List.replicate 4 0
      , daddr := if bpf_probe_read f.family_ok 0 (s.skc_family % 65536) = 2 then
            bpf_probe_read f.daddr_ok (List.replicate 4 0) s.skc_daddr
          else List.replicate 4 0
      , saddr_v6 := if bpf_probe_read f.family_ok 0 (s.skc_family % 65536) = 10 then
            bpf_probe_read f.saddr_v6_ok (List.replicate 16 0) s.skc_v6_rcv_saddr
          else List.replicate 16 0
      , daddr_v6 := if bpf_probe_read f.family_ok 0 (s.skc_family % 65536) = 10 then
            bpf_probe_read f.daddr_v6_ok (List.replicate 16 0) s.skc_v6_daddr
          else List.replicate 16 0
      , typ := memcpy_tag connectTag } := by
  simp only [probe_tcp_connect_event, event_t.zero]
  split <;> split <;> simp_all

/-- Closed form of the record built by `trace_tcp_probe`. -/
theorem trace_tcp_probe_event_eq (pid_tgid : Nat) (ctx : tcp_probe) (f : FlowReads) :
    trace_tcp_probe_event pid_tgid ctx f =
      { saddr := bpf_probe_read f.saddr_ok (List.replicate 28 0) ctx.saddr
      , daddr := bpf_probe_read f.daddr_ok (List.replicate 28 0) ctx.daddr
      , sport := ctx.sport, dport := ctx.dport, family := ctx.family
      , reason := 0, data_len := ctx.data_len, srtt := ctx.srtt
      , pid := pid_tgid % 18446744073709551616 / 4294967296 } := rfl

/-- Feeding only empty-payload samples leaves the ring buffer
untouched. -/
theorem runFlowSamples_all_zero (pid_tgid : Nat) (samples : List (tcp_probe × FlowReads))
    (rb : Ringbuf tcp_probe_event) (hz : ∀ sf ∈ samples, sf.1.data_len = 0) :
    runFlowSamples pid_tgid samples rb = rb := by
  induction samples generalizing rb with
  | nil => rfl
  | cons sf rest ih =>
    have h0 : sf.1.data_len = 0 := hz sf (by simp)
    have hstep : trace_tcp_probe pid_tgid sf.1 sf.2 rb = (rb, 0) := by
      simp [trace_tcp_probe, h0]
    simp only [runFlowSamples, List.foldl_cons]
    rw [hstep]
    exact ih rb (fun x hx => hz x (by simp [hx]))

/-- C1: for both tcpconn probes, the emitted record's `sport` and
`dport` fields are the 16-bit byte swap (host-byte-order
interpretation) of the 16-bit values read from the socket's
`skc_num` and `skc_dport` fields, and a port value encoded in network
order at the source round-trips through the capture to the original
host value. -/
theorem c1_conn_ports_host_order (pid_tgid p : Nat) (s : sock_common) (f : ConnReads)
    (hs : f.sport_ok = true) (hd : f.dport_ok = true) (hp : p < 65536) :
    (probe_tcp_close_event pid_tgid s f).sport = bswap16 (s.skc_num % 65536) ∧
    (probe_tcp_close_event pid_tgid s f).dport = bswap16 (s.skc_dport % 65536) ∧
    (probe_tcp_connect_event pid_tgid s f).sport = bswap16 (s.skc_num % 65536) ∧
    (probe_tcp_connect_event pid_tgid s f).dport = bswap16 (s.skc_dport % 65536) ∧
    (probe_tcp_close_event pid_tgid { s with skc_num := bswap16 p } f).sport = p ∧
    (probe_tcp_connect_event pid_tgid { s with skc_dport := bswap16 p } f).dport = p := by
  have hb : bswap16 p % 65536 = bswap16 p := Nat.mod_eq_of_lt (bswap16_lt p)
  refine ⟨?_, ?_, ?_, ?_, ?_, ?_⟩ <;>
    simp [probe_tcp_close_event_eq, probe_tcp_connect_event_eq, bpf_probe_read, hs, hd, hb,
      bswap16_bswap16 p hp]

/-- C1 witness: concrete evaluation at a socket holding ports 443 and
51000 in network byte order. -/
theorem c1_conn_ports_host_order_witness :
    (probe_tcp_close_event 7 demoSock ConnReads.all).sport = bswap16 (demoSock.skc_num % 65536) ∧
    (probe_tcp_close_event 7 demoSock ConnReads.all).dport = bswap16 (demoSock.skc_dport % 65536) ∧
    (probe_tcp_connect_event 7 demoSock ConnReads.all).sport = bswap16 (demoSock.skc_num % 65536) ∧
    (probe_tcp_connect_event 7 demoSock ConnReads.all).dport = bswap16 (demoSock.skc_dport % 65536) ∧
    (probe_tcp_close_event 7 { demoSock with skc_num := bswap16 443 } ConnReads.all).sport = 443 ∧
    (probe_tcp_connect_event 7 { demoSock with skc_dport := bswap16 443 } ConnReads.all).dport = 443 :=
  c1_conn_ports_host_order 7 443 demoSock ConnReads.all rfl rfl (by decide)

/-- C6: the record of `probe_tcp_connect` carries the literal
"connect" and the record of `probe_tcp_close` the literal "close" in
the tag field, null-padded to the fixed 16-byte width. -/
theorem c6_tag_literals (pid_tgid : Nat) (s : sock_common) (f : ConnReads) :
    (probe_tcp_connect_event pid_tgid s f).typ = connectTag ++ List.replicate 9 0 ∧
    (probe_tcp_close_event pid_tgid s f).typ = closeTag ++ List.replicate 11 0 ∧
    (probe_tcp_connect_event pid_tgid s f).typ.length = 16 ∧
    (probe_tcp_close_event pid_tgid s f).typ.length = 16 := by
  refine ⟨?_, ?_, ?_, ?_⟩ <;>
    simp [probe_tcp_close_event_eq, probe_tcp_connect_event_eq, memcpy_tag,
      connectTag, closeTag]

/-- C8: `trace_tcp_probe` is insensitive to the congestion-control and
window fields of the tracepoint context: changing `snd_nxt`,
`snd_una`, `snd_cwnd`, `ssthresh`, `snd_wnd`, `rcv_wnd`, `mark` and
`sock_cookie` arbitrarily changes neither the emit/suppress decision
nor the emitted record. -/
theorem c8_flow_ignores_cc_fields (pid_tgid : Nat) (ctx : tcp_probe) (f : FlowReads)
    (rb : Ringbuf tcp_probe_event) (a b c d e g h i : Nat) :
    trace_tcp_probe pid_tgid
      { ctx with snd_nxt := a, snd_una := b, snd_cwnd := c, ssthresh := d
               , snd_wnd := e, rcv_wnd := g, mark := h, sock_cookie := i } f rb
      = trace_tcp_probe pid_tgid ctx f rb := rfl

/-- C9: on identical inputs the `probe_tcp_connect` and
`probe_tcp_close` encoders agree on every field of the record except
the tag, in which they differ. -/
theorem c9_connect_close_agree (pid_tgid : Nat) (s : sock_common) (f : ConnReads) :
    (probe_tcp_connect_event pid_tgid s f).pid = (probe_tcp_close_event pid_tgid s f).pid ∧
    (probe_tcp_connect_event pid_tgid s f).sport = (probe_tcp_close_event pid_tgid s f).sport ∧
    (probe_tcp_connect_event pid_tgid s f).dport = (probe_tcp_close_event pid_tgid s f).dport ∧
    (probe_tcp_connect_event pid_tgid s f).family = (probe_tcp_close_event pid_tgid s f).family ∧
    (probe_tcp_connect_event pid_tgid s f).saddr = (probe_tcp_close_event pid_tgid s f).saddr ∧
    (probe_tcp_connect_event pid_tgid s f).daddr = (probe_tcp_close_event pid_tgid s f).daddr ∧
    (probe_tcp_connect_event pid_tgid s f).saddr_v6 = (probe_tcp_close_event pid_tgid s f).saddr_v6 ∧
    (probe_tcp_connect_event pid_tgid s f).daddr_v6 = (probe_tcp_close_event pid_tgid s f).daddr_v6 ∧
    (probe_tcp_connect_event pid_tgid s f).typ ≠ (probe_tcp_close_event pid_tgid s f).typ := by
  rw [probe_tcp_close_event_eq, probe_tcp_connect_event_eq]
  refine ⟨rfl, rfl, rfl, rfl, rfl, rfl, rfl, rfl, ?_⟩
  show memcpy_tag connectTag ≠ memcpy_tag closeTag
  decide

/-- C10: the `reason` field of `tcp_probe_event` (between `family` and
`data_len` in the layout) is zero-initialized and never assigned, so
every record built by `trace_tcp_probe` carries `reason = 0`. -/
theorem c10_reason_zero (pid_tgid : Nat) (ctx : tcp_probe) (f : FlowReads) :
    (trace_tcp_probe_event pid_tgid ctx f).reason = 0 ∧
    tcp_probe_event.zero.reason = 0 := by
  refine ⟨?_, rfl⟩
  rw [trace_tcp_probe_event_eq]

/-- C2: for both tcpconn probes, a record with `family = 2` has both
IPv6 address buffers all-zero, a record with `family = 10` has both
IPv4 address buffers all-zero, and any other family value leaves all
four address buffers all-zero. -/
theorem c2_family_zeroes_addresses (pid_tgid : Nat) (s : sock_common) (f : ConnReads) :
    ((probe_tcp_close_event pid_tgid s f).family = 2 →
      (probe_tcp_close_event pid_tgid s f).saddr_v6 = List.replicate 16 0 ∧
      (probe_tcp_close_event pid_tgid s f).daddr_v6 = List.replicate 16 0) ∧
    ((probe_tcp_close_event pid_tgid s f).family = 10 →
      (probe_tcp_close_event pid_tgid s f).saddr = List.replicate 4 0 ∧
      (probe_tcp_close_event pid_tgid s f).daddr = List.replicate 4 0) ∧
    ((probe_tcp_close_event pid_tgid s f).family ≠ 2 →
      (probe_tcp_close_event pid_tgid s f).family ≠ 10 →
      (probe_tcp_close_event pid_tgid s f).saddr = List.replicate 4 0 ∧
      (probe_tcp_close_event pid_tgid s f).daddr = List.replicate 4 0 ∧
      (probe_tcp_close_event pid_tgid s f).saddr_v6 = List.replicate 16 0 ∧
      (probe_tcp_close_event pid_tgid s f).daddr_v6 = List.replicate 16 0) ∧
    ((probe_tcp_connect_event pid_tgid s f).family = 2 →
      (probe_tcp_connect_event pid_tgid s f).saddr_v6 = List.replicate 16 0 ∧
      (probe_tcp_connect_event pid_tgid s f).daddr_v6 = List.replicate 16 0) ∧
    ((probe_tcp_connect_event pid_tgid s f).family = 10 →
      (probe_tcp_connect_event pid_tgid s f).saddr = List.replicate 4 0 ∧
      (probe_tcp_connect_event pid_tgid s f).daddr = List.replicate 4 0) ∧
    ((probe_tcp_connect_event pid_tgid s f).family ≠ 2 →
      (probe_tcp_connect_event pid_tgid s f).family ≠ 10 →
      (probe_tcp_connect_event pid_tgid s f).saddr = List.replicate 4 0 ∧
      (probe_tcp_connect_event pid_tgid s f).daddr = List.replicate 4 0 ∧
      (probe_tcp_connect_event pid_tgid s f).saddr_v6 = List.replicate 16 0 ∧
      (probe_tcp_connect_event pid_tgid s f).daddr_v6 = List.replicate 16 0) := by
  rw [probe_tcp_close_event_eq, probe_tcp_connect_event_eq]
  refine ⟨fun h => ?_, fun h => ?_, fun h h10 => ?_, fun h => ?_, fun h => ?_, fun h h10 => ?_⟩ <;>
    simp_all

/-- C2 witness: concrete evaluation at an IPv4 socket. -/
theorem c2_family_zeroes_addresses_witness :
    (probe_tcp_close_event 7 demoSock ConnReads.all).family = 2 ∧
    (probe_tcp_close_event 7 demoSock ConnReads.all).saddr_v6 = List.replicate 16 0 ∧
    (probe_tcp_close_event 7 demoSock ConnReads.all).daddr_v6 = List.replicate 16 0 ∧
    (probe_tcp_connect_event 7 demoSock ConnReads.all).saddr_v6 = List.replicate 16 0 ∧
    (probe_tcp_connect_event 7 demoSock ConnReads.all).daddr_v6 = List.replicate 16 0 := by
  have h := c2_family_zeroes_addresses 7 demoSock ConnReads.all
  have hfc : (probe_tcp_close_event 7 demoSock ConnReads.all).family = 2 := by decide
  have hfn : (probe_tcp_connect_event 7 demoSock ConnReads.all).family = 2 := by decide
  exact ⟨hfc, (h.1 hfc).1, (h.1 hfc).2, (h.2.2.2.1 hfn).1, (h.2.2.2.1 hfn).2⟩

/-- C3: `trace_tcp_probe` discards a sample with `data_len = 0` with
no record and no transport write (feeding any number of such samples
yields zero transport writes), while a sample with `data_len ≠ 0`
yields exactly one transport write, whose record lands at the tail
when the buffer has room. -/
theorem c3_data_len_filter (pid_tgid : Nat) (ctx0 ctx : tcp_probe) (f : FlowReads)
    (rb : Ringbuf tcp_probe_event) (samples : List (tcp_probe × FlowReads))
    (h0 : ctx0.data_len = 0) (hz : ∀ sf ∈ samples, sf.1.data_len = 0)
    (hnz : ctx.data_len ≠ 0) :
    trace_tcp_probe pid_tgid ctx0 f rb = (rb, 0) ∧
    runFlowSamples pid_tgid samples rb = rb ∧
    (trace_tcp_probe pid_tgid ctx f rb).1.attempts = rb.attempts + 1 ∧
    (rb.data.length < rb.capacity →
      (trace_tcp_probe pid_tgid ctx f rb).1.data
        = rb.data ++ [trace_tcp_probe_event pid_tgid ctx f]) := by
  refine ⟨by simp [trace_tcp_probe, h0],
    runFlowSamples_all_zero pid_tgid samples rb hz, ?_, fun hroom => ?_⟩
  · simp only [trace_tcp_probe, if_neg hnz, bpf_ringbuf_output]
    split <;> rfl
  · simp only [trace_tcp_probe, if_neg hnz, bpf_ringbuf_output, if_pos hroom]

/-- C3 witness: concrete evaluation with an empty-payload sample, two
further empty-payload samples, and one 1460-byte sample. -/
theorem c3_data_len_filter_witness :
    trace_tcp_probe 7 demoCtx0 demoFlowReads demoFlowRb = (demoFlowRb, 0) ∧
    runFlowSamples 7 demoSamples demoFlowRb = demoFlowRb ∧
    (trace_tcp_probe 7 demoCtx demoFlowReads demoFlowRb).1.attempts = demoFlowRb.attempts + 1 ∧
    (trace_tcp_probe 7 demoCtx demoFlowReads demoFlowRb).1.data
      = demoFlowRb.data ++ [trace_tcp_probe_event 7 demoCtx demoFlowReads] := by
  have h := c3_data_len_filter 7 demoCtx0 demoCtx demoFlowReads demoFlowRb demoSamples
    (by decide) (by decide) (by decide)
  exact ⟨h.1, h.2.1, h.2.2.1, h.2.2.2 (by decide)⟩

/-- C5: on a sample with a non-empty payload whose address reads
succeed, the emitted record carries the context's two 28-byte address
buffers verbatim and its `sport`, `dport`, `family`, `data_len` and
`srtt` fields verbatim, with no byte-order conversion; with room in
the buffer exactly that record lands at the tail. -/
theorem c5_flow_fields_verbatim (pid_tgid : Nat) (ctx : tcp_probe) (f : FlowReads)
    (rb : Ringbuf tcp_probe_event) (hnz : ctx.data_len ≠ 0)
    (hsa : f.saddr_ok = true) (hda : f.daddr_ok = true) :
    (trace_tcp_probe_event pid_tgid ctx f).saddr = ctx.saddr ∧
    (trace_tcp_probe_event pid_tgid ctx f).daddr = ctx.daddr ∧
    (trace_tcp_probe_event pid_tgid ctx f).sport = ctx.sport ∧
    (trace_tcp_probe_event pid_tgid ctx f).dport = ctx.dport ∧
    (trace_tcp_probe_event pid_tgid ctx f).family = ctx.family ∧
    (trace_tcp_probe_event pid_tgid ctx f).data_len = ctx.data_len ∧
    (trace_tcp_probe_event pid_tgid ctx f).srtt = ctx.srtt ∧
    (rb.data.length < rb.capacity →
      (trace_tcp_probe pid_tgid ctx f rb).1.data
        = rb.data ++ [trace_tcp_probe_event pid_tgid ctx f]) := by
  refine ⟨?_, ?_, rfl, rfl, rfl, rfl, rfl, fun hroom => ?_⟩
  · rw [trace_tcp_probe_event_eq]
    simp [bpf_probe_read, hsa]
  · rw [trace_tcp_probe_event_eq]
    simp [bpf_probe_read, hda]
  · simp only [trace_tcp_probe, if_neg hnz, bpf_ringbuf_output, if_pos hroom]

/-- C5 witness: concrete evaluation at a sample with
`data_len = 1460` and `srtt = 25000`. -/
theorem c5_flow_fields_verbatim_witness :
    (trace_tcp_probe_event 7 demoCtx demoFlowReads).saddr = demoCtx.saddr ∧
    (trace_tcp_probe_event 7 demoCtx demoFlowReads).daddr = demoCtx.daddr ∧
    (trace_tcp_probe_event 7 demoCtx demoFlowReads).sport = demoCtx.sport ∧
    (trace_tcp_probe_event 7 demoCtx demoFlowReads).dport = demoCtx.dport ∧
    (trace_tcp_probe_event 7 demoCtx demoFlowReads).family = demoCtx.family ∧
    (trace_tcp_probe_event 7 demoCtx demoFlowReads).data_len = demoCtx.data_len ∧
    (trace_tcp_probe_event 7 demoCtx demoFlowReads).srtt = demoCtx.srtt ∧
    (trace_tcp_probe 7 demoCtx demoFlowReads demoFlowRb).1.data
      = demoFlowRb.data ++ [trace_tcp_probe_event 7 demoCtx demoFlowReads] := by
  have h := c5_flow_fields_verbatim 7 demoCtx demoFlowReads demoFlowRb
    (by decide) rfl rfl
  exact ⟨h.1, h.2.1, h.2.2.1, h.2.2.2.1, h.2.2.2.2.1, h.2.2.2.2.2.1,
    h.2.2.2.2.2.2.1, h.2.2.2.2.2.2.2 (by decide)⟩

/-- C7: when the transport's capacity is exhausted each of the three
capture points drops the whole record (the committed data is
unchanged), makes exactly one reservation attempt (no retry), and
still returns 0 to its caller. -/
theorem c7_transport_full_drop (pid_tgid : Nat) (s : sock_common) (f : ConnReads)
    (ctx : tcp_probe) (g : FlowReads) (rb : Ringbuf event_t) (rbf : Ringbuf tcp_probe_event)
    (hfull : rb.capacity ≤ rb.data.length) (hfullf : rbf.capacity ≤ rbf.data.length)
    (hnz : ctx.data_len ≠ 0) :
    (probe_tcp_close pid_tgid s f rb).1.data = rb.data ∧
    (probe_tcp_close pid_tgid s f rb).1.attempts = rb.attempts + 1 ∧
    (probe_tcp_close pid_tgid s f rb).2 = 0 ∧
    (probe_tcp_connect pid_tgid s f rb).1.data = rb.data ∧
    (probe_tcp_connect pid_tgid s f rb).1.attempts = rb.attempts + 1 ∧
    (probe_tcp_connect pid_tgid s f rb).2 = 0 ∧
    (trace_tcp_probe pid_tgid ctx g rbf).1.data = rbf.data ∧
    (trace_tcp_probe pid_tgid ctx g rbf).1.attempts = rbf.attempts + 1 ∧
    (trace_tcp_probe pid_tgid ctx g rbf).2 = 0 := by
  have hno : ¬rb.data.length < rb.capacity := by omega
  have hnof : ¬rbf.data.length < rbf.capacity := by omega
  refine ⟨?_, ?_, rfl, ?_, ?_, rfl, ?_, ?_, ?_⟩ <;>
    simp only [probe_tcp_close, probe_tcp_connect, trace_tcp_probe, if_neg hnz,
      bpf_ringbuf_output, if_neg hno, if_neg hnof]

/-- C7 witness: concrete evaluation on zero-capacity ring buffers. -/
theorem c7_transport_full_drop_witness :
    (probe_tcp_close 7 demoSock ConnReads.all fullConnRb).1.data = fullConnRb.data ∧
    (probe_tcp_close 7 demoSock ConnReads.all fullConnRb).1.attempts = fullConnRb.attempts + 1 ∧
    (probe_tcp_close 7 demoSock ConnReads.all fullConnRb).2 = 0 ∧
    (probe_tcp_connect 7 demoSock ConnReads.all fullConnRb).1.data = fullConnRb.data ∧
    (probe_tcp_connect 7 demoSock ConnReads.all fullConnRb).1.attempts = fullConnRb.attempts + 1 ∧
    (probe_tcp_connect 7 demoSock ConnReads.all fullConnRb).2 = 0 ∧
    (trace_tcp_probe 7 demoCtx demoFlowReads fullFlowRb).1.data = fullFlowRb.data ∧
    (trace_tcp_probe 7 demoCtx demoFlowReads fullFlowRb).1.attempts = fullFlowRb.attempts + 1 ∧
    (trace_tcp_probe 7 demoCtx demoFlowReads fullFlowRb).2 = 0 :=
  c7_transport_full_drop 7 demoSock ConnReads.all demoCtx demoFlowReads fullConnRb fullFlowRb
    (by decide) (by decide) (by decide)

/-- C4: for each capture point and any subset of faulting source
reads, every destination field whose read faulted keeps its zero
default, the capture still returns 0, still makes its one transport
reservation, and the record built from the remaining fields still
lands in the transport when there is room. -/
theorem c4_faulted_reads (pid_tgid : Nat) (s : sock_common) (f : ConnReads)
    (ctx : tcp_probe) (g : FlowReads) (rb : Ringbuf event_t)
    (rbf : Ringbuf tcp_probe_event) (hnz : ctx.data_len ≠ 0) :
    (f.sport_ok = false → (probe_tcp_close_event pid_tgid s f).sport = 0) ∧
    (f.dport_ok = false → (probe_tcp_close_event pid_tgid s f).dport = 0) ∧
    (f.family_ok = false → (probe_tcp_close_event pid_tgid s f).family = 0) ∧
    (f.saddr_ok = false → (probe_tcp_close_event pid_tgid s f).saddr = List.replicate 4 0) ∧
    (f.daddr_ok = false → (probe_tcp_close_event pid_tgid s f).daddr = List.replicate 4 0) ∧
    (f.saddr_v6_ok = false → (probe_tcp_close_event pid_tgid s f).saddr_v6 = List.replicate 16 0) ∧
    (f.daddr_v6_ok = false → (probe_tcp_close_event pid_tgid s f).daddr_v6 = List.replicate 16 0) ∧
    (probe_tcp_close pid_tgid s f rb).2 = 0 ∧
    (probe_tcp_close pid_tgid s f rb).1.attempts = rb.attempts + 1 ∧
    (rb.data.length < rb.capacity →
      (probe_tcp_close pid_tgid s f rb).1.data = rb.data ++ [probe_tcp_close_event pid_tgid s f]) ∧
    (f.sport_ok = false → (probe_tcp_connect_event pid_tgid s f).sport = 0) ∧
    (f.dport_ok = false → (probe_tcp_connect_event pid_tgid s f).dport = 0) ∧
    (f.family_ok = false → (probe_tcp_connect_event pid_tgid s f).family = 0) ∧
    (f.saddr_ok = false → (probe_tcp_connect_event pid_tgid s f).saddr = List.replicate 4 0) ∧
    (f.daddr_ok = false → (probe_tcp_connect_event pid_tgid s f).daddr = List.replicate 4 0) ∧
    (f.saddr_v6_ok = false → (probe_tcp_connect_event pid_tgid s f).saddr_v6 = List.replicate 16 0) ∧
    (f.daddr_v6_ok = false → (probe_tcp_connect_event pid_tgid s f).daddr_v6 = List.replicate 16 0) ∧
    (probe_tcp_connect pid_tgid s f rb).2 = 0 ∧
    (probe_tcp_connect pid_tgid s f rb).1.attempts = rb.attempts + 1 ∧
    (rb.data.length < rb.capacity →
      (probe_tcp_connect pid_tgid s f rb).1.data = rb.data ++ [probe_tcp_connect_event pid_tgid s f]) ∧
    (g.saddr_ok = false → (trace_tcp_probe_event pid_tgid ctx g).saddr = List.replicate 28 0) ∧
    (g.daddr_ok = false → (trace_tcp_probe_event pid_tgid ctx g).daddr = List.replicate 28 0) ∧
    (trace_tcp_probe pid_tgid ctx g rbf).2 = 0 ∧
    (trace_tcp_probe pid_tgid ctx g rbf).1.attempts = rbf.attempts + 1 ∧
    (rbf.data.length < rbf.capacity →
      (trace_tcp_probe pid_tgid ctx g rbf).1.data
        = rbf.data ++ [trace_tcp_probe_event pid_tgid ctx g]) := by
  refine ⟨fun h => ?_, fun h => ?_, fun h => ?_, fun h => ?_, fun h => ?_, fun h => ?_, fun h => ?_,
    rfl, ?_, fun hroom => ?_,
    fun h => ?_, fun h => ?_, fun h => ?_, fun h => ?_, fun h => ?_, fun h => ?_, fun h => ?_,
    rfl, ?_, fun hroom => ?_,
    fun h => ?_, fun h => ?_, ?_, ?_, fun hroom => ?_⟩
  all_goals first
    | (simp [probe_tcp_close_event_eq, probe_tcp_connect_event_eq, trace_tcp_probe_event_eq,
        bpf_probe_read, bswap16, h]; done)
    | (simp only [probe_tcp_close, probe_tcp_connect, trace_tcp_probe, if_neg hnz,
        bpf_ringbuf_output]; (try rfl); (try (split <;> rfl)); done)
    | (simp only [probe_tcp_close, probe_tcp_connect, trace_tcp_probe, if_neg hnz,
        bpf_ringbuf_output, if_pos hroom]; done)

/-- C4 witness: concrete evaluation with every source read faulting. -/
theorem c4_faulted_reads_witness :
    (probe_tcp_close_event 7 demoSock ConnReads.noneOk).sport = 0 ∧
    (probe_tcp_close_event 7 demoSock ConnReads.noneOk).dport = 0 ∧
    (probe_tcp_close_event 7 demoSock ConnReads.noneOk).family = 0 ∧
    (probe_tcp_close_event 7 demoSock ConnReads.noneOk).saddr = List.replicate 4 0 ∧
    (probe_tcp_close_event 7 demoSock ConnReads.noneOk).daddr = List.replicate 4 0 ∧
    (probe_tcp_close_event 7 demoSock ConnReads.noneOk).saddr_v6 = List.replicate 16 0 ∧
    (probe_tcp_close_event 7 demoSock ConnReads.noneOk).daddr_v6 = List.replicate 16 0 ∧
    (probe_tcp_close 7 demoSock ConnReads.noneOk demoConnRb).2 = 0 ∧
    (probe_tcp_close 7 demoSock ConnReads.noneOk demoConnRb).1.attempts = demoConnRb.attempts + 1 ∧
    (probe_tcp_close 7 demoSock ConnReads.noneOk demoConnRb).1.data
      = demoConnRb.data ++ [probe_tcp_close_event 7 demoSock ConnReads.noneOk] ∧
    (probe_tcp_connect_event 7 demoSock ConnReads.noneOk).sport = 0 ∧
    (probe_tcp_connect_event 7 demoSock ConnReads.noneOk).dport = 0 ∧
    (probe_tcp_connect_event 7 demoSock ConnReads.noneOk).family = 0 ∧
    (probe_tcp_connect_event 7 demoSock ConnReads.noneOk).saddr = List.replicate 4 0 ∧
    (probe_tcp_connect_event 7 demoSock ConnReads.noneOk).daddr = List.replicate 4 0 ∧
    (probe_tcp_connect_event 7 demoSock ConnReads.noneOk).saddr_v6 = List.replicate 16 0 ∧
    (probe_tcp_connect_event 7 demoSock ConnReads.noneOk).daddr_v6 = List.replicate 16 0 ∧
    (probe_tcp_connect 7 demoSock ConnReads.noneOk demoConnRb).2 = 0 ∧
    (probe_tcp_connect 7 demoSock ConnReads.noneOk demoConnRb).1.attempts = demoConnRb.attempts + 1 ∧
    (probe_tcp_connect 7 demoSock ConnReads.noneOk demoConnRb).1.data
      = demoConnRb.data ++ [probe_tcp_connect_event 7 demoSock ConnReads.noneOk] ∧
    (trace_tcp_probe_event 7 demoCtx FlowReads.noneOk).saddr = List.replicate 28 0 ∧
    (trace_tcp_probe_event 7 demoCtx FlowReads.noneOk).daddr = List.replicate 28 0 ∧
    (trace_tcp_probe 7 demoCtx FlowReads.noneOk demoFlowRb).2 = 0 ∧
    (trace_tcp_probe 7 demoCtx FlowReads.noneOk demoFlowRb).1.attempts = demoFlowRb.attempts + 1 ∧
    (trace_tcp_probe 7 demoCtx FlowReads.noneOk demoFlowRb).1.data
      = demoFlowRb.data ++ [trace_tcp_probe_event 7 demoCtx FlowReads.noneOk] := by
  have h := c4_faulted_reads 7 demoSock ConnReads.noneOk demoCtx FlowReads.noneOk
    demoConnRb demoFlowRb (by decide)
  obtain ⟨a1, a2, a3, a4, a5, a6, a7, a8, a9, a10,
    b1, b2, b3, b4, b5, b6, b7, b8, b9, b10, d1, d2, d3, d4, d5⟩ := h
  exact ⟨a1 rfl, a2 rfl, a3 rfl, a4 rfl, a5 rfl, a6 rfl, a7 rfl, a8, a9, a10 (by decide),
    b1 rfl, b2 rfl, b3 rfl, b4 rfl, b5 rfl, b6 rfl, b7 rfl, b8, b9, b10 (by decide),
    d1 rfl, d2 rfl, d3, d4, d5 (by decide)⟩
